import Mathlib

/-!
Verification of the Lumina interior-design assistant (`src/App.tsx`,
`src/services/geminiService.ts`, `src/types.ts`).

The adapter functions of `geminiService.ts` are embedded as pure functions
over an explicit remote-response argument (the outcome of the single
`ai.models.generateContent` call each of them performs), and the workflow
controller of `App.tsx` as a state-transition function over an `AppState`
record mirroring the React state hooks.  JavaScript's `JSON.parse` is
modelled by an executable fuelled JSON reader over the character list of the
input, and `Array.prototype.slice` / `String.prototype.split` by
executable helpers with the same semantics on the inputs the code uses.
-/

namespace Lumina

/-! ## JSON values and a model of `JSON.parse` -/

/-- JSON values, as produced by `JSON.parse`.  Numbers are modelled as
integers (the service responses carry only strings, arrays and objects). -/
inductive Json where
  | null : Json
  | bool : Bool → Json
  | num : Int → Json
  | str : String → Json
  | arr : List Json → Json
  | obj : List (String × Json) → Json

/-- Double-quote character. -/
def quoteChar : Char := Char.ofNat 34

/-- Backslash character. -/
def backslashChar : Char := Char.ofNat 92

/-- Opening curly brace character. -/
def lbraceChar : Char := Char.ofNat 123

/-- Closing curly brace character. -/
def rbraceChar : Char := Char.ofNat 125

/-- Skip JSON whitespace. -/
def skipWs : List Char → List Char
  | [] => []
  | c :: rest =>
    if c = ' ' ∨ c = '\n' ∨ c = '\t' ∨ c = '\r' then skipWs rest else c :: rest

/-- Read the body of a JSON string literal (after the opening quote),
returning the accumulated characters and the remainder after the closing
quote.  Handles the basic escapes. -/
def readStrChars : List Char → List Char → Option (List Char × List Char)
  | [], _ => none
  | c :: rest, acc =>
    if c = quoteChar then some (acc.reverse, rest)
    else if c = backslashChar then
      match rest with
      | [] => none
      | e :: rest2 =>
        if e = quoteChar then readStrChars rest2 (quoteChar :: acc)
        else if e = backslashChar then readStrChars rest2 (backslashChar :: acc)
        else if e = 'n' then readStrChars rest2 ('\n' :: acc)
        else if e = 't' then readStrChars rest2 ('\t' :: acc)
        else if e = '/' then readStrChars rest2 ('/' :: acc)
        else none
    else readStrChars rest (c :: acc)

/-- Take a maximal run of decimal digits. -/
def takeDigits : List Char → List Char × List Char
  | [] => ([], [])
  | c :: rest =>
    if c.isDigit then
      let p := takeDigits rest
      (c :: p.1, p.2)
    else ([], c :: rest)

/-- Numeric value of a digit run. -/
def digitsVal (ds : List Char) : Nat :=
  ds.foldl (fun n c => n * 10 + (c.toNat - 48)) 0

/-- Insert a parsed object field; a repeated key overwrites the earlier
binding, as `JSON.parse` keeps the last occurrence of a duplicated key. -/
def addField (acc : List (String × Json)) (k : String) (v : Json) :
    List (String × Json) :=
  acc.filter (fun p => p.1 ≠ k) ++ [(k, v)]

mutual

/-- Fuelled JSON value reader. -/
def parseValue : Nat → List Char → Option (Json × List Char)
  | 0, _ => none
  | Nat.succ fuel, cs =>
    match skipWs cs with
    | [] => none
    | c :: rest =>
      if c = quoteChar then
        match readStrChars rest [] with
        | some (sc, rest2) => some (Json.str (String.mk sc), rest2)
        | none => none
      else if c = lbraceChar then parseObjFields fuel rest []
      else if c = '[' then parseArrElems fuel rest []
      else if c = 't' then
        match rest with
        | 'r' :: 'u' :: 'e' :: rest2 => some (Json.bool true, rest2)
        | _ => none
      else if c = 'f' then
        match rest with
        | 'a' :: 'l' :: 's' :: 'e' :: rest2 => some (Json.bool false, rest2)
        | _ => none
      else if c = 'n' then
        match rest with
        | 'u' :: 'l' :: 'l' :: rest2 => some (Json.null, rest2)
        | _ => none
      else if c = '-' then
        match takeDigits rest with
        | ([], _) => none
        | (ds, rest2) => some (Json.num (-(digitsVal ds : Int)), rest2)
      else if c.isDigit then
        match takeDigits (c :: rest) with
        | (ds, rest2) => some (Json.num (digitsVal ds), rest2)
      else none

/-- Fuelled reader for the fields of a JSON object (after the opening
brace). -/
def parseObjFields : Nat → List Char → List (String × Json) →
    Option (Json × List Char)
  | 0, _, _ => none
  | Nat.succ fuel, cs, acc =>
    match skipWs cs with
    | [] => none
    | c :: rest =>
      if c = rbraceChar then some (Json.obj acc, rest)
      else if c = ',' then
        if acc.isEmpty then none else parseObjFields fuel rest acc
      else if c = quoteChar then
        match readStrChars rest [] with
        | none => none
        | some (kc, rest2) =>
          match skipWs rest2 with
          | ':' :: rest3 =>
            match parseValue fuel rest3 with
            | none => none
            | some (v, rest4) =>
              parseObjFields fuel rest4 (addField acc (String.mk kc) v)
          | _ => none
      else none

/-- Fuelled reader for the elements of a JSON array (after the opening
bracket). -/
def parseArrElems : Nat → List Char → List Json → Option (Json × List Char)
  | 0, _, _ => none
  | Nat.succ fuel, cs, acc =>
    match skipWs cs with
    | [] => none
    | c :: rest =>
      if c = ']' then some (Json.arr acc.reverse, rest)
      else if c = ',' then
        if acc.isEmpty then none else parseArrElems fuel rest acc
      else
        match parseValue fuel (c :: rest) with
        | none => none
        | some (v, rest2) => parseArrElems fuel rest2 (v :: acc)

end

/-- Model of JavaScript `JSON.parse`: parse one value and require only
whitespace to remain; `none` models the `SyntaxError` thrown on malformed
input. -/
def Json.parse (s : String) : Option Json :=
  match parseValue (2 * s.length + 4) s.toList with
  | some (j, rest) => if skipWs rest = [] then some j else none
  | none => none

/-! ## Domain types (`src/types.ts`) -/

/-- `DesignCategory` (`src/types.ts`). -/
inductive DesignCategory where
  | LIGHTING
  | COLOR_PALETTE
  | LAYOUT
  | TEXTURES
  | DECOR
deriving DecidableEq, Repr

/-- `DesignAdvice` (`src/types.ts`). -/
structure DesignAdvice where
  title : String
  description : String
  principleSource : String
deriving DecidableEq, Repr

/-- `LoadingState` (`src/types.ts`). -/
inductive LoadingState where
  | idle
  | cleaning
  | analyzing
  | visualizing
deriving DecidableEq, Repr

/-! ## Generation service adapter (`src/services/geminiService.ts`)

Each adapter operation performs remote `generateContent` calls whose
outcomes are passed in explicitly: `Except.error ()` is a rejected remote
call, `Except.ok parts` is a response whose candidate content holds the
given parts (`candidates?.[0]?.content?.parts || []`). -/

/-- One part of a `generateContent` response; `inlineData` carries the
base64 image data when the part is an image. -/
structure Part where
  inlineData : Option String
deriving DecidableEq, Repr

/-- Model of JavaScript `String.prototype.split` at separator `","`. -/
def splitCommaAux : List Char → List Char → List String
  | [], acc => [String.mk acc.reverse]
  | c :: rest, acc =>
    if c = ',' then String.mk acc.reverse :: splitCommaAux rest []
    else splitCommaAux rest (c :: acc)

/-- `dataUrl.split(',')` as a list of fields. -/
def jsSplitComma (s : String) : List String :=
  splitCommaAux s.toList []

/-- `cleanBase64` (`geminiService.ts` lines 14-16):
`dataUrl.split(',')[1] || dataUrl`.  Index `1` past the end gives JS
`undefined`, and an empty string is falsy; both fall back to `dataUrl`. -/
def cleanBase64 (dataUrl : String) : String :=
  match (jsSplitComma dataUrl).get? 1 with
  | some t => if t = "" then dataUrl else t
  | none => dataUrl

/-- `cleanRoomImage` (`geminiService.ts` lines 32-65): scan the response
parts for the first `inlineData` and wrap it in a data URL; with no image
part it throws (`"No image generated."`), and a remote failure is
re-thrown by the catch block. -/
def cleanRoomImage (resp : Except Unit (List Part)) : Except Unit String :=
  match resp with
  | Except.error e => Except.error e
  | Except.ok parts =>
    match parts.findSome? Part.inlineData with
    | some d => Except.ok ("data:image/png;base64," ++ d)
    | none => Except.error ()

/-- JavaScript truthiness of a JSON value. -/
def jsTruthy : Json → Bool
  | Json.null => false
  | Json.bool b => b
  | Json.num n => n != 0
  | Json.str s => s != ""
  | Json.arr _ => true
  | Json.obj _ => true

/-- `response.text || "\x7b\x7d"` in `analyzeRoomDesign`: the SDK text may
be absent (`none`) and the empty string is falsy; both default to the
two-character object literal. -/
def responseTextOrDefault : Option String → String
  | some t => if t = "" then "\x7b\x7d" else t
  | none => "\x7b\x7d"

/-- The member access plus default `json.advice || []` in
`analyzeRoomDesign`: accessing `.advice` on `null` throws a `TypeError`
(re-thrown by the catch block); on a non-object or an object without the
field the access yields `undefined`, which is falsy, so the default `[]`
is returned; a present falsy field also defaults to `[]`. -/
def adviceOrEmpty (j : Json) : Except Unit Json :=
  match j with
  | Json.null => Except.error ()
  | Json.obj fields =>
    match List.lookup "advice" fields with
    | some v => Except.ok (if jsTruthy v then v else Json.arr [])
    | none => Except.ok (Json.arr [])
  | _ => Except.ok (Json.arr [])

/-- `analyzeRoomDesign` (`geminiService.ts` lines 68-137), as a function of
the remote call outcome (`Except.ok text` carries `response.text`):
`JSON.parse(response.text || "\x7b\x7d")` followed by `json.advice || []`;
any exception (remote failure, `SyntaxError` from `JSON.parse`, `TypeError`
on `null`) is logged and re-thrown by the catch block. -/
def analyzeRoomDesign (remote : Except Unit (Option String)) :
    Except Unit Json :=
  match remote with
  | Except.error e => Except.error e
  | Except.ok text =>
    match Json.parse (responseTextOrDefault text) with
    | none => Except.error ()
    | some j => adviceOrEmpty j

/-- The fixed four-entry prompt-variation table of
`generateDesignVisualizations` (`geminiService.ts` lines 151-183); the
`default` arm covers `TEXTURES` and `DECOR`. -/
def variationsFor : DesignCategory → List String
  | DesignCategory.LIGHTING =>
    ["Apply the \x27Layered Lighting\x27 principle. Show Ambient lighting as the base layer for overall illumination.",
     "Apply the \x27Task Lighting\x27 principle. Focus on direct light for reading or working areas (lamps, under-cabinet).",
     "Apply the \x27Accent Lighting\x27 principle. Highlight architectural features or art with directional spotlights.",
     "Apply the \x27Atmospheric/Mood Lighting\x27 principle. Use warm color temperatures, dimmers, and soft diffusers for a cozy vibe."]
  | DesignCategory.LAYOUT =>
    ["Layout Principle: \x27The Triangle of Flow\x27. Optimize pathways between major furniture pieces for easy movement.",
     "Layout Principle: \x27Social Convergence\x27. Arrange furniture to face each other to encourage conversation (circular or U-shape).",
     "Layout Principle: \x27Zoning\x27. Create distinct functional zones (e.g. reading nook vs watching TV) using rugs or furniture placement.",
     "Layout Principle: \x27Symmetry and Balance\x27. Create a formal, mirror-image arrangement for a calm, stable look."]
  | DesignCategory.COLOR_PALETTE =>
    ["Color Theory: Monochromatic harmony. Use varying shades of a single dominant color found in the room.",
     "Color Theory: Analogous colors. Use colors that sit next to each other on the color wheel for a serene look.",
     "Color Theory: Complementary contrast. Introduce accents that are opposite on the color wheel to the main room color.",
     "Color Theory: The 60-30-10 Rule. 60% dominant neutral, 30% secondary color, 10% bold accent color."]
  | _ =>
    ["Design Style: Minimalist and Modern. Clean lines, decluttered surfaces, functional furniture.",
     "Design Style: Organic Modern (Biophilic). Introduce plants, natural wood textures, and soft curves.",
     "Design Style: Transitional. Blend traditional warmth with modern lines.",
     "Design Style: Eclectic. Mix textures, eras, and patterns for a collected, curated look."]

/-- The per-variation `fullPrompt` template of
`generateDesignVisualizations`. -/
def fullPrompt (variationDescription : String) : String :=
  "\n      Create a photorealistic visualization of this room.\n      Keep the room\x27s main structure (walls, windows, floor type) exactly the same.\n      Apply this design principle: " ++
    variationDescription ++
    ".\n      Make it look like a high-end interior design portfolio shot.\n    "

/-- JavaScript `Array.prototype.slice(0, stop)`: a negative `stop` counts
from the end of the array (clamped at 0), a nonnegative one is clamped at
the length. -/
def jsSliceZero {α : Type} (xs : List α) (stop : Int) : List α :=
  xs.take
    (if stop < 0 then (max ((xs.length : Int) + stop) 0).toNat
     else (min stop (xs.length : Int)).toNat)

/-- Outcome of one parallel variation request, as mapped inside the
`selectedVariations.map` closure: a rejected call is caught and mapped to
`null` (`none`), a response is scanned for its first `inlineData` part,
and a response without one also gives `null`. -/
def extractImagePart (resp : Except Unit (List Part)) : Option String :=
  match resp with
  | Except.error _ => none
  | Except.ok parts =>
    match parts.findSome? Part.inlineData with
    | some d => some ("data:image/png;base64," ++ d)
    | none => none

/-- `generateDesignVisualizations` (`geminiService.ts` lines 140-221), as a
function of the per-request remote outcomes (`remote i p` is the outcome of
the request for the `i`-th selected variation, whose full prompt is `p`):
slice the fixed variation table to `count`, issue one request per selected
variation (`Promise.all` keeps the input order), and filter out the `null`
results. -/
def generateDesignVisualizations
    (remote : Nat → String → Except Unit (List Part))
    (category : DesignCategory) (count : Int) : List String :=
  let variations := variationsFor category
  let selectedVariations := jsSliceZero variations count
  let results := selectedVariations.enum.map
    (fun p => extractImagePart (remote p.1 (fullPrompt p.2)))
  results.filterMap id

/-- The `i`-th parallel variation request of a
`generateDesignVisualizations` run, as observed after the per-request
catch/extraction. -/
def variationCall (remote : Nat → String → Except Unit (List Part))
    (category : DesignCategory) (i : Nat) : Option String :=
  extractImagePart (remote i (fullPrompt ((variationsFor category).getD i "")))

/-- Number of remote requests a `generateDesignVisualizations` run issues:
one per selected variation. -/
def issuedRequests (category : DesignCategory) (count : Int) : Nat :=
  (jsSliceZero (variationsFor category) count).length

/-- Value of a string field of a JSON object, if present. -/
def fieldStr (j : Json) (k : String) : Option String :=
  match j with
  | Json.obj fields =>
    match List.lookup k fields with
    | some (Json.str s) => some s
    | _ => none
  | _ => none

/-! ## Workflow controller (`src/App.tsx`)

The React state hooks of `App` are gathered into one record; each handler
becomes a state-transition function.  The adapter operations a handler
awaits are passed in as function arguments, so that a handler itself stays
a pure transition on the state. -/

/-- The state hooks of `App` (`App.tsx` lines 7-15); the drag-over flag is
pure view state and is not part of the workflow. -/
structure AppState where
  originalImage : Option String
  cleanImage : Option String
  isCleanMode : Bool
  loadingState : LoadingState
  selectedCategory : DesignCategory
  advice : List DesignAdvice
  visualizations : List String
  error : Option String
deriving DecidableEq, Repr

/-- The generic message set by `handleAnalysis` on a failure at either
stage. -/
def analysisFailedMessage : String :=
  "Analysis failed. The AI might be busy, please try again."

/-- The message set by `handleCleanCheck` when decluttering fails. -/
def cleanFailedMessage : String :=
  "Could not clean the room. Please try again."

/-- `processFile` (`App.tsx` lines 20-31): the `FileReader` result string
replaces the original image and the derived/session outputs are cleared.
The function performs no remote call and does not touch `loadingState` or
`selectedCategory`. -/
def processFile (result : String) (s : AppState) : AppState :=
  { s with
    originalImage := some result
    cleanImage := none
    isCleanMode := false
    advice := []
    visualizations := []
    error := none }

/-- The `activeImage` expression (`App.tsx` line 124):
`isCleanMode && cleanImage ? cleanImage : originalImage`. -/
def activeImage (s : AppState) : Option String :=
  if s.isCleanMode ∧ s.cleanImage.isSome then s.cleanImage else s.originalImage

/-- `handleCleanCheck` (`App.tsx` lines 65-93), with the checkbox value
`checked` and the `cleanRoomImage` adapter passed as `cleanF`.  The
returned flag records whether the remote declutter operation was invoked.
Unchecking only disables clean mode; checking with a cached clean image
only enables it; otherwise the declutter call runs, storing the cleaned
image on success and surfacing an error (with the checkbox reverted) on
failure, with `loadingState` restored to idle by the `finally` block. -/
def handleCleanCheck (cleanF : String → Except Unit String)
    (checked : Bool) (s : AppState) : AppState × Bool :=
  match s.originalImage with
  | none => (s, false)
  | some originalImage =>
    if !checked then ({ s with isCleanMode := false }, false)
    else
      match s.cleanImage with
      | some _ => ({ s with isCleanMode := true }, false)
      | none =>
        match cleanF originalImage with
        | Except.ok cleaned =>
          ({ s with
              loadingState := LoadingState.idle
              error := none
              cleanImage := some cleaned
              isCleanMode := true }, true)
        | Except.error _ =>
          ({ s with
              loadingState := LoadingState.idle
              error := some cleanFailedMessage
              isCleanMode := false }, true)

/-- `handleAnalysis` (`App.tsx` lines 95-120), with the two adapter
operations passed as `analyzeF` and `visualizeF` (applied to the image, the
selected category and — for visualization — the fixed count 4).  The second
component of the result is the sequence of `loadingState` values over the
run, starting from the initial one.  With no original image the handler
returns immediately; otherwise it clears advice, visualizations and error,
runs analysis then visualization, and the catch/finally blocks set the
generic error message on a failure at either stage and always restore
`loadingState` to idle. -/
def handleAnalysis
    (analyzeF : String → DesignCategory → Except Unit (List DesignAdvice))
    (visualizeF : String → DesignCategory → Int → Except Unit (List String))
    (s : AppState) : AppState × List LoadingState :=
  match s.originalImage with
  | none => (s, [s.loadingState])
  | some originalImage =>
    let imageToAnalyze :=
      if s.isCleanMode ∧ s.cleanImage.isSome then s.cleanImage.getD originalImage
      else originalImage
    let s1 := { s with
      loadingState := LoadingState.analyzing
      advice := []
      visualizations := []
      error := none }
    match analyzeF imageToAnalyze s.selectedCategory with
    | Except.error _ =>
      ({ s1 with
          error := some analysisFailedMessage
          loadingState := LoadingState.idle },
        [s.loadingState, LoadingState.analyzing, LoadingState.idle])
    | Except.ok adviceResult =>
      let s2 := { s1 with
        advice := adviceResult
        loadingState := LoadingState.visualizing }
      match visualizeF imageToAnalyze s.selectedCategory 4 with
      | Except.error _ =>
        ({ s2 with
            error := some analysisFailedMessage
            loadingState := LoadingState.idle },
          [s.loadingState, LoadingState.analyzing, LoadingState.visualizing,
            LoadingState.idle])
      | Except.ok visualResult =>
        ({ s2 with
            visualizations := visualResult
            loadingState := LoadingState.idle },
          [s.loadingState, LoadingState.analyzing, LoadingState.visualizing,
            LoadingState.idle])

/-! ## Concrete instances used by witnesses and counterexamples -/

/-- A sample advice record. -/
def sampleAdvice : DesignAdvice :=
  { title := "t", description := "d", principleSource := "p" }

/-- A session state at idle, with an original image, a cached cleaned image
and clean mode enabled. -/
def sIdle : AppState :=
  { originalImage := some "o"
    cleanImage := some "c"
    isCleanMode := true
    loadingState := LoadingState.idle
    selectedCategory := DesignCategory.LIGHTING
    advice := []
    visualizations := []
    error := none }

/-- A session state captured while the analysis stage is in flight. -/
def sBusy : AppState :=
  { originalImage := some "a"
    cleanImage := some "c"
    isCleanMode := true
    loadingState := LoadingState.analyzing
    selectedCategory := DesignCategory.LIGHTING
    advice := [sampleAdvice]
    visualizations := ["v"]
    error := none }

/-- A remote oracle whose every request succeeds with one image part. -/
def okRemote : Nat → String → Except Unit (List Part) :=
  fun _ _ => Except.ok [{ inlineData := some "A" }]

/-- A remote oracle whose second parallel request (index 1) fails and whose
other requests succeed with one image part. -/
def oneFailRemote : Nat → String → Except Unit (List Part) :=
  fun i _ => if i = 1 then Except.error () else Except.ok [{ inlineData := some "A" }]

/-- The data URL every successful `okRemote`/`oneFailRemote` request
produces. -/
def uAll : Nat → String :=
  fun _ => "data:image/png;base64,A"

/-- An always-succeeding analysis adapter stub. -/
def fOracle : String → DesignCategory → Except Unit (List DesignAdvice) :=
  fun _ _ => Except.ok [sampleAdvice]

/-- An always-succeeding visualization adapter stub. -/
def gOracle : String → DesignCategory → Int → Except Unit (List String) :=
  fun _ _ _ => Except.ok ["u"]

/-- An always-failing analysis adapter stub. -/
def fErr : String → DesignCategory → Except Unit (List DesignAdvice) :=
  fun _ _ => Except.error ()

/-- An always-failing visualization adapter stub. -/
def gErr : String → DesignCategory → Int → Except Unit (List String) :=
  fun _ _ _ => Except.error ()

/-- An always-failing declutter adapter stub. -/
def cleanErrOracle : String → Except Unit String :=
  fun _ => Except.error ()

/-- An always-succeeding declutter adapter stub. -/
def cleanOkOracle : String → Except Unit String :=
  fun _ => Except.ok "x"

/-- Response text of an analysis call carrying exactly four fully-populated
advice items. -/
def adviceJsonText : String :=
  "\x7b\"advice\":[\x7b\"title\":\"T1\",\"description\":\"D1\",\"principleSource\":\"P1\"\x7d,\x7b\"title\":\"T2\",\"description\":\"D2\",\"principleSource\":\"P2\"\x7d,\x7b\"title\":\"T3\",\"description\":\"D3\",\"principleSource\":\"P3\"\x7d,\x7b\"title\":\"T4\",\"description\":\"D4\",\"principleSource\":\"P4\"\x7d]\x7d"

/-- The parsed advice items of `adviceJsonText`. -/
def adviceItems : List Json :=
  [Json.obj [("title", Json.str "T1"), ("description", Json.str "D1"),
      ("principleSource", Json.str "P1")],
   Json.obj [("title", Json.str "T2"), ("description", Json.str "D2"),
      ("principleSource", Json.str "P2")],
   Json.obj [("title", Json.str "T3"), ("description", Json.str "D3"),
      ("principleSource", Json.str "P3")],
   Json.obj [("title", Json.str "T4"), ("description", Json.str "D4"),
      ("principleSource", Json.str "P4")]]

/-- Response text of an analysis call whose advice array holds four items
with no fields at all. -/
def emptyItemsJsonText : String :=
  "\x7b\"advice\":[\x7b\x7d,\x7b\x7d,\x7b\x7d,\x7b\x7d]\x7d"

/-! ## Theorems -/

/-- C1 counterexample: with a remote call that succeeds but returns the
malformed JSON text consisting of a lone opening brace, `JSON.parse`
throws and `analyzeRoomDesign` re-throws — it does not return an empty
advice list, contradicting the claim that malformed JSON degrades to an
empty list without an exception. -/
theorem analyze_malformed_json_counterexample :
    analyzeRoomDesign (Except.ok (some "\x7b")) = Except.error ()
    ∧ analyzeRoomDesign (Except.ok (some "\x7b")) ≠ Except.ok (Json.arr []) := by
  refine ⟨rfl, fun h => ?_⟩
  exact Except.noConfusion h

/-- C1 (amended): if the response text is well-formed JSON that parses to
an object without an `advice` field (and likewise when the text is absent
or empty, defaulted to an empty object), `analyzeRoomDesign` returns the
empty advice list rather than raising; malformed JSON, by contrast,
propagates an exception. -/
theorem analyze_missing_advice_empty (text : String)
    (fields : List (String × Json))
    (hp : Json.parse text = some (Json.obj fields))
    (hf : List.lookup "advice" fields = none) :
    analyzeRoomDesign (Except.ok (some text)) = Except.ok (Json.arr []) := by
  by_cases ht : text = ""
  · subst ht
    exact Option.noConfusion hp
  · have h1 : responseTextOrDefault (some text) = text := if_neg ht
    simp only [analyzeRoomDesign, h1, hp, adviceOrEmpty, hf]

/-- Witness for `analyze_missing_advice_empty` at the concrete response
text consisting of an empty JSON object. -/
theorem analyze_missing_advice_empty_witness :
    analyzeRoomDesign (Except.ok (some "\x7b\x7d")) = Except.ok (Json.arr []) :=
  analyze_missing_advice_empty "\x7b\x7d" [] rfl rfl

/-- C8 counterexample: a successful analysis call whose valid-JSON response
carries exactly four advice items with no fields is returned verbatim, so
the returned items do not have a non-empty `title` (nor `description` or
`principleSource`), contradicting the claim's non-emptiness guarantee. -/
theorem analyze_four_items_empty_fields_counterexample :
    analyzeRoomDesign (Except.ok (some emptyItemsJsonText))
      = Except.ok (Json.arr [Json.obj [], Json.obj [], Json.obj [], Json.obj []])
    ∧ fieldStr (Json.obj []) "title" = none :=
  ⟨rfl, rfl⟩

/-- C8 (amended): when an analysis call succeeds with valid JSON whose
truthy `advice` field is an array of exactly 4 items, the returned advice
list is that array verbatim — in particular it has length 4; the item
fields are not validated, so they are non-empty exactly when the response
provides them non-empty. -/
theorem analyze_four_items_verbatim (text : String)
    (fields : List (String × Json)) (items : List Json)
    (hp : Json.parse text = some (Json.obj fields))
    (hf : List.lookup "advice" fields = some (Json.arr items))
    (hlen : items.length = 4) :
    analyzeRoomDesign (Except.ok (some text)) = Except.ok (Json.arr items)
    ∧ items.length = 4 := by
  refine ⟨?_, hlen⟩
  by_cases ht : text = ""
  · subst ht
    exact Option.noConfusion hp
  · have h1 : responseTextOrDefault (some text) = text := if_neg ht
    simp only [analyzeRoomDesign, h1, hp, adviceOrEmpty, hf, jsTruthy, if_true]

set_option maxRecDepth 4000 in
/-- Witness for `analyze_four_items_verbatim` at a concrete four-item
response text. -/
theorem analyze_four_items_verbatim_witness :
    analyzeRoomDesign (Except.ok (some adviceJsonText))
      = Except.ok (Json.arr adviceItems)
    ∧ adviceItems.length = 4 :=
  analyze_four_items_verbatim adviceJsonText
    [("advice", Json.arr adviceItems)] adviceItems rfl rfl rfl

/-- C9 counterexample: on an input with two commas whose middle field is
non-empty, `cleanBase64` returns only the field between the first and the
second comma, not the whole substring after the first comma as claimed. -/
theorem cleanBase64_two_commas_counterexample :
    cleanBase64 "a,b,c" = "b" ∧ cleanBase64 "a,b,c" ≠ "b,c" :=
  ⟨rfl, by decide⟩

/-- C9 (amended): `cleanBase64` splits on every comma and keys on the
second field: with no comma the input is returned unchanged; when the
field between the first comma and the next comma (or the end of the
string) is non-empty, that field is the payload; when that second field is
empty the entire original string is returned unchanged. -/
theorem cleanBase64_second_field (s : String) :
    (∀ t1, jsSplitComma s = [t1] → cleanBase64 s = s)
    ∧ (∀ t1 t2 rest, jsSplitComma s = t1 :: t2 :: rest → t2 ≠ "" →
        cleanBase64 s = t2)
    ∧ (∀ t1 rest, jsSplitComma s = t1 :: "" :: rest → cleanBase64 s = s) := by
  refine ⟨?_, ?_, ?_⟩
  · intro t1 h
    unfold cleanBase64
    rw [h]
    rfl
  · intro t1 t2 rest h hne
    unfold cleanBase64
    rw [h]
    show (if t2 = "" then s else t2) = t2
    exact if_neg hne
  · intro t1 rest h
    unfold cleanBase64
    rw [h]
    rfl

/-- Witness for `cleanBase64_second_field` at a concrete data URL: the
base64 payload after the comma is extracted. -/
theorem cleanBase64_second_field_witness :
    cleanBase64 "data:image/jpeg;base64,AAAA" = "AAAA" :=
  (cleanBase64_second_field "data:image/jpeg;base64,AAAA").2.1
    "data:image/jpeg;base64" "AAAA" [] rfl (by decide)

/-- A `filterMap` over `List.range 4` is the `filterMap` of the list of the
four values. -/
theorem range4_filterMap {β : Type} (g : Nat → Option β) :
    (List.range 4).filterMap g = List.filterMap id [g 0, g 1, g 2, g 3] := rfl

/-- A `generateDesignVisualizations` run with `count = 4` issues exactly
the four variation requests of the category's table, in order. -/
theorem gen4_eq (remote : Nat → String → Except Unit (List Part))
    (cat : DesignCategory) :
    generateDesignVisualizations remote cat 4 =
      List.filterMap id
        [variationCall remote cat 0, variationCall remote cat 1,
         variationCall remote cat 2, variationCall remote cat 3] := by
  cases cat <;> rfl

/-- C10 counterexample: `Visualize` with `count = -1` follows the
JavaScript negative-index `slice` semantics, so it issues 3 variation
requests and (with all of them succeeding) returns 3 results, refuting the
claim that `count <= 0` yields an empty list with no remote calls. -/
theorem visualize_negative_count_counterexample :
    (generateDesignVisualizations okRemote DesignCategory.DECOR (-1)).length = 3
    ∧ generateDesignVisualizations okRemote DesignCategory.DECOR (-1) ≠ []
    ∧ issuedRequests DesignCategory.DECOR (-1) = 3 :=
  ⟨rfl, by decide, rfl⟩

/-- C10 (amended): every `Visualize` run issues at most 4 variation
requests (one per selected entry of a fixed 4-element table) and returns
at most that many results; the number of requests follows JavaScript
`slice(0, count)` semantics — `min count 4` when `count ≥ 0` (so
`count = 0` issues no request and returns the empty list), and
`max (4 + count) 0` when `count < 0`. -/
theorem visualize_count_bounds
    (remote : Nat → String → Except Unit (List Part))
    (cat : DesignCategory) (count : Int) :
    issuedRequests cat count ≤ 4
    ∧ (generateDesignVisualizations remote cat count).length
        ≤ issuedRequests cat count
    ∧ (issuedRequests cat count : Int)
        = (if count < 0 then max (4 + count) 0 else min count 4)
    ∧ generateDesignVisualizations remote cat 0 = [] := by
  have hv : (variationsFor cat).length = 4 := by cases cat <;> rfl
  have hlen : issuedRequests cat count
      = (if count < 0 then (max ((4 : Int) + count) 0).toNat
         else (min count 4).toNat) := by
    simp only [issuedRequests, jsSliceZero, List.length_take, hv]
    norm_num
    split <;> omega
  refine ⟨?_, ?_, ?_, ?_⟩
  · rw [hlen]
    split <;> omega
  · simp only [generateDesignVisualizations, issuedRequests]
    calc (List.filterMap id ((jsSliceZero (variationsFor cat) count).enum.map
            (fun p => extractImagePart (remote p.1 (fullPrompt p.2))))).length
        ≤ ((jsSliceZero (variationsFor cat) count).enum.map
            (fun p => extractImagePart (remote p.1 (fullPrompt p.2)))).length :=
          List.length_filterMap_le _ _
      _ = (jsSliceZero (variationsFor cat) count).length := by
          rw [List.length_map, List.enum_length]
  · rw [hlen]
    split <;> rename_i hc <;> omega
  · cases cat <;> rfl

/-- C3: any individual variation request of a `Visualize` run that errors
or returns no image part is dropped rather than raised — the result is the
successful subset in input-variation order — and with `count = 4` and
exactly one of the four parallel requests failing, the result is the three
successful data URLs in order. -/
theorem visualize_drops_failures_in_order
    (remote : Nat → String → Except Unit (List Part)) (cat : DesignCategory)
    (i : Nat) (u : Nat → String) (hi : i < 4)
    (hfail : variationCall remote cat i = none)
    (hok : ∀ j, j < 4 → j ≠ i → variationCall remote cat j = some (u j)) :
    generateDesignVisualizations remote cat 4
        = (List.range 4).filterMap (variationCall remote cat)
    ∧ generateDesignVisualizations remote cat 4
        = (List.range 4).filterMap (fun j => if j = i then none else some (u j))
    ∧ (generateDesignVisualizations remote cat 4).length = 3 := by
  have h1 : generateDesignVisualizations remote cat 4
      = (List.range 4).filterMap (variationCall remote cat) :=
    (gen4_eq remote cat).trans (range4_filterMap _).symm
  have h2 : generateDesignVisualizations remote cat 4
      = (List.range 4).filterMap (fun j => if j = i then none else some (u j)) := by
    rw [h1, range4_filterMap, range4_filterMap]
    interval_cases i
    · rw [hfail, hok 1 (by omega) (by omega), hok 2 (by omega) (by omega),
        hok 3 (by omega) (by omega)]
      simp
    · rw [hfail, hok 0 (by omega) (by omega), hok 2 (by omega) (by omega),
        hok 3 (by omega) (by omega)]
      simp
    · rw [hfail, hok 0 (by omega) (by omega), hok 1 (by omega) (by omega),
        hok 3 (by omega) (by omega)]
      simp
    · rw [hfail, hok 0 (by omega) (by omega), hok 1 (by omega) (by omega),
        hok 2 (by omega) (by omega)]
      simp
  have h3 : (generateDesignVisualizations remote cat 4).length = 3 := by
    rw [h2, range4_filterMap]
    interval_cases i <;> simp
  exact ⟨h1, h2, h3⟩

/-- Witness for `visualize_drops_failures_in_order` with the concrete
oracle whose second parallel request (index 1) fails. -/
theorem visualize_drops_failures_in_order_witness :
    generateDesignVisualizations oneFailRemote DesignCategory.LIGHTING 4
        = (List.range 4).filterMap (variationCall oneFailRemote DesignCategory.LIGHTING)
    ∧ generateDesignVisualizations oneFailRemote DesignCategory.LIGHTING 4
        = (List.range 4).filterMap (fun j => if j = 1 then none else some (uAll j))
    ∧ (generateDesignVisualizations oneFailRemote DesignCategory.LIGHTING 4).length = 3 :=
  visualize_drops_failures_in_order oneFailRemote DesignCategory.LIGHTING 1 uAll
    (by decide) rfl (by decide)

/-- C4 counterexample: an upload processed while the analysis stage is in
flight leaves `loadingState` untouched — `processFile` never writes it —
so the workflow state is not reset to Idle as claimed. -/
theorem upload_loading_state_counterexample :
    (processFile "b" sBusy).loadingState = LoadingState.analyzing
    ∧ (processFile "b" sBusy).loadingState ≠ LoadingState.idle := by
  decide

/-- C4 (amended): every upload replaces the original image, clears the
cached cleaned image, disables clean mode, clears advice, visualizations
and error, and issues no remote call (`processFile` is a pure state
update); the loading phase is left unchanged — so it is Idle after the
upload exactly when it was Idle before — and two successive uploads leave
no cleaned image, advice or visualizations from the first. -/
theorem upload_replaces_session (img : String) (s : AppState) :
    (processFile img s).originalImage = some img
    ∧ (processFile img s).cleanImage = none
    ∧ (processFile img s).isCleanMode = false
    ∧ (processFile img s).advice = []
    ∧ (processFile img s).visualizations = []
    ∧ (processFile img s).error = none
    ∧ (processFile img s).loadingState = s.loadingState
    ∧ (processFile img s).selectedCategory = s.selectedCategory
    ∧ ∀ imgA imgB s0,
        (processFile imgB (processFile imgA s0)).cleanImage = none
        ∧ (processFile imgB (processFile imgA s0)).advice = []
        ∧ (processFile imgB (processFile imgA s0)).visualizations = []
        ∧ (processFile imgB (processFile imgA s0)).originalImage = some imgB :=
  ⟨rfl, rfl, rfl, rfl, rfl, rfl, rfl, rfl, fun _ _ _ => ⟨rfl, rfl, rfl, rfl⟩⟩

/-- The image `handleAnalysis` computes on line 98 equals the `activeImage`
expression of line 124 (both are the same conditional). -/
theorem imageToAnalyze_eq_active (s : AppState) (orig : String)
    (h : s.originalImage = some orig) :
    (if s.isCleanMode ∧ s.cleanImage.isSome then s.cleanImage.getD orig else orig)
      = (activeImage s).getD orig := by
  unfold activeImage
  by_cases hc : s.isCleanMode ∧ s.cleanImage.isSome
  · rw [if_pos hc, if_pos hc]
  · rw [if_neg hc, if_neg hc, h]
    rfl

/-- C2: a `Generate()` run that fails at either stage surfaces the single
generic error message and returns to Idle with no partially-applied
results from the failed stage: on an analysis-stage failure both advice
and visualizations end empty, and on a visualization-stage failure the
advice obtained in the same run is retained while visualizations end
empty. -/
theorem generate_failure_state
    (analyzeF : String → DesignCategory → Except Unit (List DesignAdvice))
    (visualizeF : String → DesignCategory → Int → Except Unit (List String))
    (s : AppState) (orig : String) (h : s.originalImage = some orig) :
    (analyzeF ((activeImage s).getD orig) s.selectedCategory = Except.error () →
      (handleAnalysis analyzeF visualizeF s).1
        = { s with
            loadingState := LoadingState.idle
            advice := []
            visualizations := []
            error := some analysisFailedMessage })
    ∧ (∀ adv,
        analyzeF ((activeImage s).getD orig) s.selectedCategory = Except.ok adv →
        visualizeF ((activeImage s).getD orig) s.selectedCategory 4
          = Except.error () →
        (handleAnalysis analyzeF visualizeF s).1
          = { s with
              loadingState := LoadingState.idle
              advice := adv
              visualizations := []
              error := some analysisFailedMessage }) := by
  have key := imageToAnalyze_eq_active s orig h
  constructor
  · intro hf
    simp only [handleAnalysis, h, key, hf]
  · intro adv ha hv
    simp only [handleAnalysis, h, key, ha, hv]

/-- Witness for `generate_failure_state`: with an always-failing analysis
adapter the run ends at Idle with cleared advice and visualizations and
the generic message. -/
theorem generate_failure_state_witness :
    (handleAnalysis fErr gErr sIdle).1
      = { sIdle with
          loadingState := LoadingState.idle
          advice := []
          visualizations := []
          error := some analysisFailedMessage } :=
  (generate_failure_state fErr gErr sIdle "o" rfl).1 rfl

/-- C5: a `Generate()` run started at Idle with an image present traverses
exactly the loading states [idle, analyzing, visualizing, idle], or ends
early as [idle, analyzing, idle] when the analysis stage fails; the state
is one `LoadingState` value throughout, so two non-Idle phases are never
simultaneously in flight. -/
theorem generate_trace
    (analyzeF : String → DesignCategory → Except Unit (List DesignAdvice))
    (visualizeF : String → DesignCategory → Int → Except Unit (List String))
    (s : AppState) (orig : String)
    (h1 : s.originalImage = some orig) (h2 : s.loadingState = LoadingState.idle) :
    (handleAnalysis analyzeF visualizeF s).2
        = [LoadingState.idle, LoadingState.analyzing, LoadingState.visualizing,
            LoadingState.idle]
    ∨ (handleAnalysis analyzeF visualizeF s).2
        = [LoadingState.idle, LoadingState.analyzing, LoadingState.idle] := by
  simp only [handleAnalysis, h1, h2]
  split
  · exact Or.inr rfl
  · split
    · exact Or.inl rfl
    · exact Or.inl rfl

/-- Witness for `generate_trace` at a concrete idle session with
always-succeeding adapters. -/
theorem generate_trace_witness :
    (handleAnalysis fOracle gOracle sIdle).2
        = [LoadingState.idle, LoadingState.analyzing, LoadingState.visualizing,
            LoadingState.idle]
    ∨ (handleAnalysis fOracle gOracle sIdle).2
        = [LoadingState.idle, LoadingState.analyzing, LoadingState.idle] :=
  generate_trace fOracle gOracle sIdle "o" rfl rfl

/-- C6: with a cached cleaned image, disabling clean mode is a pure
synchronous switch of the active image back to the original — the state
changes only in `isCleanMode`, the cached cleaned image is kept, and no
remote call is issued — and re-enabling clean mode switches the active
image back to the cleaned one, again without invoking the remote declutter
operation. -/
theorem clean_mode_toggle_cached
    (cleanF cleanF2 : String → Except Unit String) (s : AppState)
    (orig c : String)
    (h1 : s.originalImage = some orig) (h2 : s.cleanImage = some c) :
    handleCleanCheck cleanF false s = ({ s with isCleanMode := false }, false)
    ∧ (handleCleanCheck cleanF false s).1.cleanImage = some c
    ∧ activeImage (handleCleanCheck cleanF false s).1 = some orig
    ∧ handleCleanCheck cleanF2 true (handleCleanCheck cleanF false s).1
        = ({ (handleCleanCheck cleanF false s).1 with isCleanMode := true }, false)
    ∧ activeImage
        (handleCleanCheck cleanF2 true (handleCleanCheck cleanF false s).1).1
        = some c := by
  have hd : handleCleanCheck cleanF false s
      = ({ s with isCleanMode := false }, false) := by
    simp only [handleCleanCheck, h1, Bool.not_false, if_true]
  refine ⟨hd, ?_, ?_, ?_, ?_⟩
  · rw [hd]
    exact h2
  · rw [hd]
    simp [activeImage, h1]
  · rw [hd]
    simp only [handleCleanCheck, h1, h2, Bool.not_true, Bool.false_eq_true,
      if_false]
  · rw [hd]
    simp only [handleCleanCheck, h1, h2, Bool.not_true, Bool.false_eq_true,
      if_false]
    simp [activeImage, h2]

/-- Witness for `clean_mode_toggle_cached` at a concrete cached session:
after disable then re-enable the active image is the cached cleaned
image. -/
theorem clean_mode_toggle_cached_witness :
    activeImage (handleCleanCheck cleanOkOracle true
        (handleCleanCheck cleanErrOracle false sIdle).1).1 = some "c" :=
  (clean_mode_toggle_cached cleanErrOracle cleanOkOracle sIdle "o" "c"
    rfl rfl).2.2.2.2

/-- C7: whenever an original image is present, the active image equals the
cleaned image when clean mode is enabled and a cleaned image exists and
the original otherwise, and a `Generate()` run passes exactly this active
image (with the selected category, and count 4 for visualization) to both
adapter operations. -/
theorem active_image_selection (s : AppState) (orig : String)
    (h : s.originalImage = some orig) :
    activeImage s = some ((activeImage s).getD orig)
    ∧ ∀ (analyzeF : String → DesignCategory → Except Unit (List DesignAdvice))
        (visualizeF : String → DesignCategory → Int → Except Unit (List String)),
        handleAnalysis analyzeF visualizeF s
          = handleAnalysis
              (fun _ _ => analyzeF ((activeImage s).getD orig) s.selectedCategory)
              (fun _ _ _ =>
                visualizeF ((activeImage s).getD orig) s.selectedCategory 4) s := by
  have key := imageToAnalyze_eq_active s orig h
  constructor
  · unfold activeImage
    by_cases hc : s.isCleanMode ∧ s.cleanImage.isSome
    · rw [if_pos hc]
      obtain ⟨-, hs⟩ := hc
      cases hcc : s.cleanImage with
      | none => rw [hcc] at hs; cases hs
      | some c' => rfl
    · rw [if_neg hc, h]
      rfl
  · intro analyzeF visualizeF
    simp only [handleAnalysis, h, key]

/-- Witness for `active_image_selection` at a concrete session with clean
mode enabled and a cached cleaned image: the active image is the cleaned
one and it is what both adapters receive. -/
theorem active_image_selection_witness :
    activeImage sIdle = some "c"
    ∧ handleAnalysis fOracle gOracle sIdle
        = handleAnalysis
            (fun _ _ => fOracle "c" sIdle.selectedCategory)
            (fun _ _ _ => gOracle "c" sIdle.selectedCategory 4) sIdle :=
  ⟨(active_image_selection sIdle "o" rfl).1,
   (active_image_selection sIdle "o" rfl).2 fOracle gOracle⟩

end Lumina
